import Mathlib

/-!
Verification of the aggregate-validation and document-assembly core of the
activity-report generator (Python sources under `src/`).

The Python code is shallowly embedded: Python strings become `String`
(processed as `List Char`), Python `None`/`''` for optional text fields are
both modelled as `""` (the code only ever tests their truthiness, where both
are falsy, and uses them when non-empty), numeric dict values become an
explicit `PyNum` (Python `int` or `float`), and code that can raise is
modelled in the `Except` monad.  `datetime.strptime` with the fixed formats
`%Y-%m-%d` / `%H:%M` is embedded as an explicit parser that accepts exactly
the strings CPython accepts for those formats (digits are modelled as ASCII
digits).
-/

/-! ## Basic character and string utilities (Python semantics) -/

/-- Characters stripped by `str.strip()` and matched by the regex class
`\s` (ASCII range). -/
def pyIsSpace (c : Char) : Bool :=
  c = ' ' || c = '\t' || c = '\n' || c = '\r' || c = '\x0b' || c = '\x0c'

/-- `str.strip()` on the character list: drop whitespace from both ends. -/
def pyStripList (l : List Char) : List Char :=
  ((l.dropWhile pyIsSpace).reverse.dropWhile pyIsSpace).reverse

/-- `str.strip()`. -/
def pyStrip (s : String) : String := (pyStripList s.toList).asString

/-- One step of `str.title()`: a letter becomes uppercase when the previous
character is not a letter, lowercase otherwise (ASCII model of Python's
cased/uncased distinction). -/
def pyTitleGo : Bool → List Char → List Char
  | _, [] => []
  | prevAlpha, c :: cs =>
      (if c.isAlpha then (if prevAlpha then c.toLower else c.toUpper) else c)
        :: pyTitleGo c.isAlpha cs

/-- `str.title()`. -/
def pyTitle (s : String) : String := (pyTitleGo false s.toList).asString

/-- `str.replace('_', ' ')` (single-character pattern, so a map). -/
def underscoreToSpace (s : String) : String :=
  (s.toList.map (fun c => if c = '_' then ' ' else c)).asString

/-- `sep.join(xs)` for Python strings. -/
def joinSep (sep : String) : List String → String
  | [] => ""
  | [x] => x
  | x :: y :: rest => x ++ sep ++ joinSep sep (y :: rest)

/-- `s.split(sep)` for a one-character separator: always returns at least one
(possibly empty) piece. -/
def splitOnChar (sep : Char) : List Char → List (List Char)
  | [] => [[]]
  | c :: cs =>
      let r := splitOnChar sep cs
      if c = sep then [] :: r
      else
        match r with
        | [] => [[c]]
        | x :: xs => (c :: x) :: xs

/-- Numeric value of a list of ASCII digits; `none` unless the list is
non-empty and all digits (the shape accepted by the strptime regexes). -/
def digitsToNat (cs : List Char) : Option Nat :=
  if cs ≠ [] ∧ cs.all Char.isDigit then
    some (cs.foldl (fun a c => 10 * a + (c.toNat - 48)) 0)
  else none

/-! ## strptime / date and time values -/

/-- A calendar date `(year, month, day)` as produced by
`datetime.strptime(s, "%Y-%m-%d").date()`. -/
abbrev PyDate := Nat × Nat × Nat

/-- A wall-clock time `(hour, minute)` as produced by
`datetime.strptime(s, "%H:%M").time()`. -/
abbrev PyTime := Nat × Nat

/-- Gregorian leap-year rule used by `datetime.date`. -/
def isLeapYear (y : Nat) : Bool :=
  y % 4 = 0 && (y % 100 ≠ 0 || y % 400 = 0)

/-- Days in a month, as enforced by the `datetime.date` constructor. -/
def daysInMonth (y m : Nat) : Nat :=
  if m = 2 then (if isLeapYear y then 29 else 28)
  else if m = 4 ∨ m = 6 ∨ m = 9 ∨ m = 11 then 30
  else 31

/-- `datetime.strptime(s, "%Y-%m-%d")`: CPython compiles this format to the
regex `^\d\d\d\d\-(1[0-2]|0[1-9]|[1-9])\-(3[01]|[12]\d|0[1-9]|[1-9])$` and
then builds a `date`, which additionally checks the day against the month
length and rejects year 0.  Failure (`none`) corresponds to `ValueError`. -/
def parseDate (s : String) : Option PyDate :=
  match splitOnChar '-' s.toList with
  | [ys, ms, ds] =>
      match digitsToNat ys, digitsToNat ms, digitsToNat ds with
      | some y, some m, some d =>
          if ys.length = 4 ∧ ms.length ≤ 2 ∧ ds.length ≤ 2
              ∧ 1 ≤ y ∧ 1 ≤ m ∧ m ≤ 12 ∧ 1 ≤ d ∧ d ≤ daysInMonth y m then
            some (y, m, d)
          else none
      | _, _, _ => none
  | _ => none

/-- `datetime.strptime(s, "%H:%M")`: regex
`^(2[0-3]|[0-1]\d|\d):([0-5]\d|\d)$`. -/
def parseTime (s : String) : Option PyTime :=
  match splitOnChar ':' s.toList with
  | [hs, ms] =>
      match digitsToNat hs, digitsToNat ms with
      | some h, some m =>
          if hs.length ≤ 2 ∧ ms.length ≤ 2 ∧ h ≤ 23 ∧ m ≤ 59 then
            some (h, m)
          else none
      | _, _ => none
  | _ => none

/-- Strict ordering on `datetime.date` values (lexicographic). -/
def dateLt (a b : PyDate) : Bool :=
  a.1 < b.1 ∨ (a.1 = b.1 ∧ (a.2.1 < b.2.1 ∨ (a.2.1 = b.2.1 ∧ a.2.2 < b.2.2)))

/-- Strict ordering on `datetime.time` values (lexicographic). -/
def timeLt (a b : PyTime) : Bool :=
  a.1 < b.1 ∨ (a.1 = b.1 ∧ a.2 < b.2)

/-! ## Python numeric values (for dict fields such as `count`) -/

/-- A Python number stored in a data dict: an `int` or a `float` (float
values are modelled by their exact rational value; non-finite floats do not
occur as participant counts). -/
inductive PyNum where
  | int (n : Int)
  | float (q : ℚ)
deriving DecidableEq

/-- `isinstance(x, int)`. -/
def PyNum.isInt : PyNum → Bool
  | .int _ => true
  | .float _ => false

/-- The numeric value used by Python's mixed `int`/`float` comparisons. -/
def PyNum.toRat : PyNum → ℚ
  | .int n => (n : ℚ)
  | .float q => q

/-! ## ValidationService (src/src/services/validation.py) -/

namespace ValidationService

/-- Character class `[a-zA-Z0-9._%+-]` (local part of the email regex). -/
def localChar (c : Char) : Bool :=
  c.isAlpha || c.isDigit || c = '.' || c = '_' || c = '%' || c = '+' || c = '-'

/-- Character class `[a-zA-Z0-9.-]` (domain part of the email regex). -/
def domainChar (c : Char) : Bool :=
  c.isAlpha || c.isDigit || c = '.' || c = '-'

/-- Does `cs` match `[a-zA-Z0-9.-]+\.[a-zA-Z]{2,}` (the part of the email
regex after the `@`)?  Backtracking makes this an existential over the
position of the dot that starts the final alphabetic run. -/
def domainTailMatch (cs : List Char) : Bool :=
  (List.range cs.length).any fun i =>
    decide (1 ≤ i) && (cs.getD i ' ' = '.')
      && (cs.take i).all domainChar
      && decide (2 ≤ (cs.drop (i + 1)).length)
      && (cs.drop (i + 1)).all Char.isAlpha

/-- Full match of `^[a-zA-Z0-9._%+-]+@[a-zA-Z0-9.-]+\.[a-zA-Z]{2,}$` against
the exact character list: none of the classes contains `@`, so a match forces
exactly one `@` and the split there. -/
def emailRegexMatch (cs : List Char) : Bool :=
  match splitOnChar '@' cs with
  | [l, r] => decide (l ≠ []) && l.all localChar && domainTailMatch r
  | _ => false

/-- `ValidationService.validate_email`: `re.match` with a `$`-anchored
pattern, and `$` also matches just before one trailing newline. -/
def validate_email (email : String) : Bool :=
  let cs := email.toList
  emailRegexMatch cs
    || (cs.getLast? = some '\n' && emailRegexMatch cs.dropLast)

/-- `ValidationService.validate_phone_number`: strip `[\s\-\(\)]`, then
`isdigit()` (non-empty, all digits) and length between 10 and 15. -/
def validate_phone_number (phone : String) : Bool :=
  let clean := phone.toList.filter fun c =>
    !(pyIsSpace c || c = '-' || c = '(' || c = ')')
  decide (clean ≠ []) && clean.all Char.isDigit
    && decide (10 ≤ clean.length) && decide (clean.length ≤ 15)

/-- `ValidationService.validate_date` (default format `%Y-%m-%d`). -/
def validate_date (date_str : String) : Bool := (parseDate date_str).isSome

/-- `ValidationService.validate_time` (default format `%H:%M`). -/
def validate_time (time_str : String) : Bool := (parseTime time_str).isSome

/-- Message returned by `validate_date_range` when `strptime` raises: the
Python text is `f"Invalid date format: {str(e)}"`; no caller inspects the
interpolated exception text, so it is modelled by the offending inputs. -/
def dateFormatFailMsg (start_date end_date : String) : String :=
  "Invalid date format: " ++ start_date ++ " " ++ end_date

/-- `ValidationService.validate_date_range`. -/
def validate_date_range (start_date end_date : String) : Bool × String :=
  match parseDate start_date, parseDate end_date with
  | some s, some e =>
      if dateLt e s then (false, "End date cannot be before start date")
      else (true, "")
  | _, _ => (false, dateFormatFailMsg start_date end_date)

/-- Message returned by `validate_time_range` when `strptime` raises
(same modelling as `dateFormatFailMsg`). -/
def timeFormatFailMsg (start_time end_time : String) : String :=
  "Invalid time format: " ++ start_time ++ " " ++ end_time

/-- `ValidationService.validate_time_range`. -/
def validate_time_range (start_time end_time : String) : Bool × String :=
  match parseTime start_time, parseTime end_time with
  | some s, some e =>
      if timeLt e s then (false, "End time cannot be before start time")
      else (true, "")
  | _, _ => (false, timeFormatFailMsg start_time end_time)

/-- The `activity_data` dict: every field the validator reads.  A missing
key and an empty string are both falsy in Python and are both modelled as
`""`. -/
structure ActivityData where
  activity_type : String := ""
  start_date : String := ""
  end_date : String := ""
  start_time : String := ""
  end_time : String := ""
  venue : String := ""
  collaboration_sponsor : String := ""
  highlights : String := ""
  key_takeaway : String := ""
  summary : String := ""
  follow_up_plan : String := ""
  sub_category : String := ""
  sub_category_other : String := ""
deriving DecidableEq

/-- `f"{field.replace('_', ' ').title()} is required"`. -/
def requiredMsg (field : String) : String :=
  pyTitle (underscoreToSpace field) ++ " is required"

/-- `f"{...} exceeds maximum length of {max_length} characters"`. -/
def lengthMsg (field : String) (max_length : Nat) : String :=
  pyTitle (underscoreToSpace field) ++ " exceeds maximum length of "
    ++ toString max_length ++ " characters"

/-- Required-fields loop of `validate_activity_data`
(`['activity_type', 'start_date']`, in that order). -/
def requiredFieldErrors (a : ActivityData) : List String :=
  (if a.activity_type = "" then [requiredMsg "activity_type"] else [])
    ++ (if a.start_date = "" then [requiredMsg "start_date"] else [])

/-- Date-format checks of `validate_activity_data`. -/
def dateFormatErrors (a : ActivityData) : List String :=
  (if a.start_date ≠ "" ∧ ¬ validate_date a.start_date
    then ["Invalid start date format"] else [])
    ++ (if a.end_date ≠ "" ∧ ¬ validate_date a.end_date
        then ["Invalid end date format"] else [])

/-- Date-range check of `validate_activity_data` (only when both dates are
truthy). -/
def dateRangeErrors (a : ActivityData) : List String :=
  if a.start_date ≠ "" ∧ a.end_date ≠ "" then
    match validate_date_range a.start_date a.end_date with
    | (true, _) => []
    | (false, msg) => [msg]
  else []

/-- Time-format checks of `validate_activity_data`. -/
def timeFormatErrors (a : ActivityData) : List String :=
  (if a.start_time ≠ "" ∧ ¬ validate_time a.start_time
    then ["Invalid start time format"] else [])
    ++ (if a.end_time ≠ "" ∧ ¬ validate_time a.end_time
        then ["Invalid end time format"] else [])

/-- Time-range check of `validate_activity_data`: evaluated only when the
two date strings are equal and both times are truthy. -/
def timeRangeErrors (a : ActivityData) : List String :=
  if a.start_date = a.end_date ∧ a.start_time ≠ "" ∧ a.end_time ≠ "" then
    match validate_time_range a.start_time a.end_time with
    | (true, _) => []
    | (false, msg) => [msg]
  else []

/-- Text-length loop of `validate_activity_data`, unrolled over the literal
`text_limits` dict in its insertion order. -/
def textLimitErrors (a : ActivityData) : List String :=
  (if a.venue ≠ "" ∧ 200 < a.venue.length
    then [lengthMsg "venue" 200] else [])
    ++ (if a.collaboration_sponsor ≠ "" ∧ 500 < a.collaboration_sponsor.length
        then [lengthMsg "collaboration_sponsor" 500] else [])
    ++ (if a.highlights ≠ "" ∧ 2000 < a.highlights.length
        then [lengthMsg "highlights" 2000] else [])
    ++ (if a.key_takeaway ≠ "" ∧ 2000 < a.key_takeaway.length
        then [lengthMsg "key_takeaway" 2000] else [])
    ++ (if a.summary ≠ "" ∧ 3000 < a.summary.length
        then [lengthMsg "summary" 3000] else [])
    ++ (if a.follow_up_plan ≠ "" ∧ 2000 < a.follow_up_plan.length
        then [lengthMsg "follow_up_plan" 2000] else [])

/-- Sub-category check of `validate_activity_data`. -/
def subCategoryErrors (a : ActivityData) : List String :=
  if a.sub_category = "Other" ∧ a.sub_category_other = "" then
    ["Please specify sub category when 'Other' is selected"]
  else []

/-- `ValidationService.validate_activity_data`: the error list accumulated
block by block in source order. -/
def validate_activity_data (a : ActivityData) : List String :=
  requiredFieldErrors a ++ dateFormatErrors a ++ dateRangeErrors a
    ++ timeFormatErrors a ++ timeRangeErrors a ++ textLimitErrors a
    ++ subCategoryErrors a

/-- The `speaker_data` dict fields read by the validator. -/
structure SpeakerData where
  name : String := ""
  title_position : String := ""
  organization : String := ""
  contact_info : String := ""
  presentation_title : String := ""
deriving DecidableEq

/-- Text-length loop of `validate_speaker_data`, unrolled over its literal
`text_limits` dict in insertion order. -/
def speakerLengthErrors (s : SpeakerData) : List String :=
  (if s.name ≠ "" ∧ 100 < s.name.length
    then [lengthMsg "name" 100] else [])
    ++ (if s.title_position ≠ "" ∧ 100 < s.title_position.length
        then [lengthMsg "title_position" 100] else [])
    ++ (if s.organization ≠ "" ∧ 150 < s.organization.length
        then [lengthMsg "organization" 150] else [])
    ++ (if s.contact_info ≠ "" ∧ 200 < s.contact_info.length
        then [lengthMsg "contact_info" 200] else [])
    ++ (if s.presentation_title ≠ "" ∧ 200 < s.presentation_title.length
        then [lengthMsg "presentation_title" 200] else [])

/-- `ValidationService.validate_speaker_data`. -/
def validate_speaker_data (s : SpeakerData) : List String :=
  (if s.name = "" then ["Speaker name is required"] else [])
    ++ speakerLengthErrors s
    ++ (if s.contact_info ≠ ""
          ∧ ¬ (validate_email s.contact_info || validate_phone_number s.contact_info)
        then ["Contact information should be a valid email address or phone number"]
        else [])

/-- The `participant_data` dict fields read by the validator; `count` is
`none` when the key is absent (`dict.get('count', 0)` then yields `0`). -/
structure ParticipantData where
  participant_type : String := ""
  count : Option PyNum := none
deriving DecidableEq

/-- `ValidationService.validate_participant_data`. -/
def validate_participant_data (p : ParticipantData) : List String :=
  let count := p.count.getD (.int 0)
  (if p.participant_type = "" then ["Participant type is required"] else [])
    ++ (if ¬ count.isInt ∨ count.toRat ≤ 0
        then ["Participant count must be a positive integer"] else [])
    ++ (if 9999 < count.toRat
        then ["Participant count cannot exceed 9999"] else [])

/-- The `preparer_data` dict fields read by the validator. -/
structure PreparerData where
  name : String := ""
  designation : String := ""
deriving DecidableEq

/-- `ValidationService.validate_report_preparer_data`. -/
def validate_report_preparer_data (p : PreparerData) : List String :=
  (if p.name = "" then ["Preparer name is required"] else [])
    ++ (if p.designation = "" then ["Preparer designation is required"] else [])
    ++ (if p.name ≠ "" ∧ 100 < p.name.length
        then [lengthMsg "name" 100] else [])
    ++ (if p.designation ≠ "" ∧ 100 < p.designation.length
        then [lengthMsg "designation" 100] else [])

/-- One photo dict as stored in `complete_data['photos']` (only the list
length is read by the validators). -/
structure PhotoData where
  photo_path : String := ""
  photo_type : String := "activity"
  caption : String := ""
deriving DecidableEq

/-- The `complete_data` dict handed to
`validate_complete_activity_report`. -/
structure CompleteData where
  activity : ActivityData := {}
  speakers : List SpeakerData := []
  participants : List ParticipantData := []
  report_preparers : List PreparerData := []
  photos : List PhotoData := []
deriving DecidableEq

/-- Result dict `{'valid': ..., 'errors': ..., 'warnings': ...}`. -/
structure VResult where
  valid : Bool
  errors : List String
  warnings : List String
deriving DecidableEq

/-- `for i, x in enumerate(xs, 1): for error in errsOf(x):
errors.append(f"(tag) (i): (error)")`. -/
def numberedErrors (tag : String) (errsOf : α → List String)
    (xs : List α) : List String :=
  xs.enum.flatMap fun p =>
    (errsOf p.2).map fun e => tag ++ " " ++ toString (p.1 + 1) ++ ": " ++ e

/-- `ValidationService.validate_complete_activity_report`: sections are
appended in source order (activity, speakers, participants, preparers);
the photo count contributes only a warning. -/
def validate_complete_activity_report (c : CompleteData) : VResult :=
  let errors :=
    validate_activity_data c.activity
      ++ (if c.speakers.length = 0 then ["At least one speaker is required"]
          else numberedErrors "Speaker" validate_speaker_data c.speakers)
      ++ (if c.participants.length = 0
          then ["At least one participant type is required"]
          else numberedErrors "Participant Type" validate_participant_data
                 c.participants)
      ++ (if c.report_preparers.length = 0
          then ["At least one report preparer is required"]
          else numberedErrors "Report Preparer" validate_report_preparer_data
                 c.report_preparers)
  let warnings :=
    (if c.photos.length < 2
      then ["Only " ++ toString c.photos.length
              ++ " photo(s) uploaded. Minimum 2 recommended for PDF generation"]
      else [])
      ++ (if c.activity.venue = ""
          then ["Venue not specified - recommended for complete report"] else [])
      ++ (if c.activity.highlights = "" ∧ c.activity.summary = ""
          then ["No highlights or summary provided - recommended for complete report"]
          else [])
      ++ (if c.activity.key_takeaway = ""
          then ["No key takeaways provided - recommended for complete report"]
          else [])
  { valid := decide (errors.length = 0), errors := errors, warnings := warnings }

/-- `ValidationService.sanitize_text_input`: strip, then drop NUL
characters, then truncate when `max_length` is truthy (`None` and `0` are
both falsy, so neither truncates). -/
def sanitize_text_input (text : String) (max_length : Option Nat := none) :
    String :=
  if text = "" then ""
  else
    let s1 := pyStripList text.toList
    let s2 := s1.filter fun c => c ≠ '\x00'
    match max_length with
    | some k => if k ≠ 0 then (s2.take k).asString else s2.asString
    | none => s2.asString

end ValidationService

/-! ## Data models (src/src/models) -/

/-- `models/participant.py` `Participant` (database identifier fields are
not modelled; no logic reads them). -/
structure Participant where
  participant_type : String
  count : Int
deriving DecidableEq

/-- `Participant.display_type`: fixed mapping with `str.title()` fallback. -/
def Participant.display_type (p : Participant) : String :=
  if p.participant_type = "faculty" then "Faculty"
  else if p.participant_type = "student" then "Students"
  else if p.participant_type = "research_scholar" then "Research Scholars"
  else pyTitle p.participant_type

/-- `models/speaker.py` `Speaker` (fields read by the aggregate model;
optional strings are `""` when absent). -/
structure Speaker where
  name : String := ""
  title_position : String := ""
  organization : String := ""
  contact_info : String := ""
  presentation_title : String := ""
  profile_image_path : String := ""
  profile_text : String := ""
deriving DecidableEq

/-- `models/report.py` `ReportPreparer`. -/
structure ReportPreparer where
  name : String := ""
  designation : String := ""
  signature_image_path : String := ""
deriving DecidableEq

/-- `models/report.py` `ActivityPhoto`. -/
structure ActivityPhoto where
  photo_path : String := ""
  photo_type : String := "activity"
  caption : String := ""
deriving DecidableEq

/-- `models/activity.py` `Activity`: the aggregate validator reads only the
truthiness of `activity_type` and `start_date`, so string fields model the
stored values (`""` = absent/`None`). -/
structure Activity where
  activity_type : String := ""
  start_date : String := ""
  end_date : String := ""
  start_time : String := ""
  end_time : String := ""
  venue : String := ""
  collaboration_sponsor : String := ""
  highlights : String := ""
  key_takeaway : String := ""
  summary : String := ""
  follow_up_plan : String := ""
deriving DecidableEq

/-- `models/report.py` `ActivityReport`: the assembled aggregate. -/
structure ActivityReport where
  activity : Activity
  speakers : List Speaker
  participants : List Participant
  report_preparers : List ReportPreparer
  photos : List ActivityPhoto
deriving DecidableEq

/-- `ActivityReport.total_participants`. -/
def ActivityReport.total_participants (r : ActivityReport) : Int :=
  (r.participants.map Participant.count).sum

/-- `type_counts[key] = type_counts.get(key, 0) + c` on an insertion-ordered
dict modelled as an association list: update in place, or append. -/
def bumpCount (key : String) (c : Int) :
    List (String × Int) → List (String × Int)
  | [] => [(key, c)]
  | (k, v) :: rest =>
      if k = key then (k, v + c) :: rest else (k, v) :: bumpCount key c rest

/-- The `type_counts` dict built by `participant_types_display`, in
insertion order. -/
def typeCounts (ps : List Participant) : List (String × Int) :=
  ps.foldl (fun acc p => bumpCount p.display_type p.count acc) []

/-- `ActivityReport.participant_types_display`. -/
def ActivityReport.participant_types_display (r : ActivityReport) : String :=
  joinSep ", "
    ((typeCounts r.participants).map fun kv => toString kv.2 ++ " " ++ kv.1)

/-- `ActivityReport.validate_minimum_requirements`, block by block in source
order; note the photo check sits between the participant checks and the
preparer checks. -/
def ActivityReport.validate_minimum_requirements (r : ActivityReport) :
    List String :=
  (if r.activity.activity_type = "" then ["Activity type is required"] else [])
    ++ (if r.activity.start_date = "" then ["Start date is required"] else [])
    ++ (if r.speakers.length = 0
        then ["At least one speaker is required"] else [])
    ++ (if ¬ r.speakers.all (fun s => s.name ≠ "")
        then ["All speakers must have a name"] else [])
    ++ (if r.participants.length = 0
        then ["At least one participant type is required"] else [])
    ++ (if ¬ r.participants.all (fun p => 0 < p.count)
        then ["All participant counts must be greater than 0"] else [])
    ++ (if r.photos.length < 2
        then ["At least 2 activity photos are required for PDF generation"]
        else [])
    ++ (if r.report_preparers.length = 0
        then ["At least one report preparer is required"] else [])
    ++ (if ¬ r.report_preparers.all (fun p => p.name ≠ "" ∧ p.designation ≠ "")
        then ["All report preparers must have name and designation"] else [])

/-! ## PDF generator (src/src/services/pdf_generator.py) -/

/-- English month names as produced by `strftime("%B")` (C locale). -/
def monthName : Nat → String
  | 1 => "January"
  | 2 => "February"
  | 3 => "March"
  | 4 => "April"
  | 5 => "May"
  | 6 => "June"
  | 7 => "July"
  | 8 => "August"
  | 9 => "September"
  | 10 => "October"
  | 11 => "November"
  | 12 => "December"
  | _ => ""

/-- Two-digit zero padding, as produced by `strftime("%d")` / `%m`. -/
def pad2 (n : Nat) : String :=
  if n < 10 then "0" ++ toString n else toString n

/-- `strftime` restricted to the directives the repository uses (`%d`,
`%m`, `%B`, `%Y`, `%%`); other text, including unrecognised `%x` pairs, is
passed through as glibc does. -/
def strftimeGo (d : PyDate) : List Char → List Char
  | [] => []
  | '%' :: c :: rest =>
      (match c with
        | 'd' => (pad2 d.2.2).toList
        | 'm' => (pad2 d.2.1).toList
        | 'B' => (monthName d.2.1).toList
        | 'Y' => (toString d.1).toList
        | '%' => ['%']
        | other => ['%', other]) ++ strftimeGo d rest
  | c :: rest => c :: strftimeGo d rest

/-- `date.strftime(fmt)` over the modelled directive subset. -/
def pyStrftime (d : PyDate) (fmt : String) : String :=
  (strftimeGo d fmt.toList).asString

/-- The long display format `"%d %B %Y"` used by `prepare_template_data`
(e.g. `"05 March 2025"`). -/
def fmtLongDate (d : PyDate) : String := pyStrftime d "%d %B %Y"

/-- `PDFGeneratorService.date_filter`: empty stays empty; a parseable date
is rendered with `strftime`; anything else is returned unchanged (the bare
`except` swallows the `ValueError`). -/
def date_filter (date_str : String) (format_str : String := "j F Y") :
    String :=
  if date_str = "" then ""
  else
    match parseDate date_str with
    | some d => pyStrftime d format_str
    | none => date_str

/-- The slice of the template `activity` dict touched by the date-formatting
block of `prepare_template_data` (lines 124-132): the raw stored strings
plus the `start_date_formatted` / `end_date_formatted` keys it may add. -/
structure TemplateActivity where
  start_date : String := ""
  end_date : String := ""
  start_date_formatted : Option String := none
  end_date_formatted : Option String := none
deriving DecidableEq

/-- The date-formatting block of `PDFGeneratorService.prepare_template_data`:
both `strptime` calls sit inside one `try`, so when `start_date` parses but
`end_date` does not, `start_date_formatted` has already been assigned and
survives, while a parse failure of `start_date` leaves both keys absent --
even when `end_date` would have parsed. -/
def prepareTemplateActivityDates (a : TemplateActivity) : TemplateActivity :=
  if a.start_date ≠ "" then
    match parseDate a.start_date with
    | none => a
    | some sd =>
        let a1 := { a with start_date_formatted := some (fmtLongDate sd) }
        if a.end_date ≠ "" then
          match parseDate a.end_date with
          | none => a1
          | some ed => { a1 with end_date_formatted := some (fmtLongDate ed) }
        else a1
  else a

/-! ## Exception-level view of the pure field validators

`datetime.strptime` either returns a value or raises `ValueError`; each
range/format validator wraps its calls in `try/except ValueError`.  The
validators are re-traced here in the `Except` monad, so that "never raises"
is a provable statement rather than an artefact of the embedding. -/

/-- The exception kinds reachable inside the field validators. -/
inductive PyExc where
  | valueError
deriving DecidableEq

/-- `datetime.strptime(s, "%Y-%m-%d")` with its `ValueError` explicit. -/
def strptimeDateExc (s : String) : Except PyExc PyDate :=
  match parseDate s with
  | some d => .ok d
  | none => .error .valueError

/-- `datetime.strptime(s, "%H:%M")` with its `ValueError` explicit. -/
def strptimeTimeExc (s : String) : Except PyExc PyTime :=
  match parseTime s with
  | some t => .ok t
  | none => .error .valueError

/-- `validate_date` as written: `try: strptime(...); return True except
ValueError: return False`. -/
def validate_dateExc (s : String) : Except PyExc Bool :=
  match strptimeDateExc s with
  | .ok _ => .ok true
  | .error .valueError => .ok false

/-- `validate_time` as written. -/
def validate_timeExc (s : String) : Except PyExc Bool :=
  match strptimeTimeExc s with
  | .ok _ => .ok true
  | .error .valueError => .ok false

/-- `validate_date_range` as written: both `strptime` calls inside the
`try`, the `except ValueError` arm returning the format message. -/
def validate_date_rangeExc (start_date end_date : String) :
    Except PyExc (Bool × String) :=
  match (do
      let s ← strptimeDateExc start_date
      let e ← strptimeDateExc end_date
      pure (s, e) : Except PyExc (PyDate × PyDate)) with
  | .ok (s, e) =>
      .ok (if dateLt e s then (false, "End date cannot be before start date")
           else (true, ""))
  | .error .valueError =>
      .ok (false, ValidationService.dateFormatFailMsg start_date end_date)

/-- `validate_time_range` as written. -/
def validate_time_rangeExc (start_time end_time : String) :
    Except PyExc (Bool × String) :=
  match (do
      let s ← strptimeTimeExc start_time
      let e ← strptimeTimeExc end_time
      pure (s, e) : Except PyExc (PyTime × PyTime)) with
  | .ok (s, e) =>
      .ok (if timeLt e s then (false, "End time cannot be before start time")
           else (true, ""))
  | .error .valueError =>
      .ok (false, ValidationService.timeFormatFailMsg start_time end_time)

/-! ## Spec-side reference definition for the display claim -/

/-- Modelled from the spec: `participant_types_display` as the spec words
describe it -- "comma-joined `(count) (label)` fragments, in the order the
participants were stored", one fragment per stored row.  Compared against
the source-derived `ActivityReport.participant_types_display`. -/
def specParticipantTypesDisplay (ps : List Participant) : String :=
  joinSep ", "
    (ps.map fun p => toString p.count ++ " " ++ p.display_type)

/-! ## Named section views used by the ordering theorems -/

namespace ValidationService

/-- Speakers section of `validate_complete_activity_report`. -/
def speakersSectionErrors (ss : List SpeakerData) : List String :=
  if ss.length = 0 then ["At least one speaker is required"]
  else numberedErrors "Speaker" validate_speaker_data ss

/-- Participants section of `validate_complete_activity_report`. -/
def participantsSectionErrors (ps : List ParticipantData) : List String :=
  if ps.length = 0 then ["At least one participant type is required"]
  else numberedErrors "Participant Type" validate_participant_data ps

/-- Preparers section of `validate_complete_activity_report`. -/
def preparersSectionErrors (rs : List PreparerData) : List String :=
  if rs.length = 0 then ["At least one report preparer is required"]
  else numberedErrors "Report Preparer" validate_report_preparer_data rs

end ValidationService

/-- Activity block of `validate_minimum_requirements`. -/
def minActivityErrors (r : ActivityReport) : List String :=
  (if r.activity.activity_type = "" then ["Activity type is required"] else [])
    ++ (if r.activity.start_date = "" then ["Start date is required"] else [])

/-- Speakers block of `validate_minimum_requirements`. -/
def minSpeakersErrors (r : ActivityReport) : List String :=
  (if r.speakers.length = 0 then ["At least one speaker is required"] else [])
    ++ (if ¬ r.speakers.all (fun s => s.name ≠ "")
        then ["All speakers must have a name"] else [])

/-- Participants block of `validate_minimum_requirements`. -/
def minParticipantsErrors (r : ActivityReport) : List String :=
  (if r.participants.length = 0
    then ["At least one participant type is required"] else [])
    ++ (if ¬ r.participants.all (fun p => 0 < p.count)
        then ["All participant counts must be greater than 0"] else [])

/-- Photos block of `validate_minimum_requirements`. -/
def minPhotosErrors (r : ActivityReport) : List String :=
  if r.photos.length < 2
  then ["At least 2 activity photos are required for PDF generation"] else []

/-- Preparers block of `validate_minimum_requirements`. -/
def minPreparersErrors (r : ActivityReport) : List String :=
  (if r.report_preparers.length = 0
    then ["At least one report preparer is required"] else [])
    ++ (if ¬ r.report_preparers.all (fun p => p.name ≠ "" ∧ p.designation ≠ "")
        then ["All report preparers must have name and designation"] else [])

/-- First character of a string, used to separate message families whose
tails vary with the input. -/
def strHead (s : String) : Option Char := s.data.head?

/-! ## Helper lemmas -/

theorem mem_if_singleton {c : Prop} [Decidable c] {m e : String} :
    e ∈ (if c then [m] else []) ↔ c ∧ e = m := by
  by_cases h : c <;> simp [h]

theorem string_ne_empty_of_data (a : String) (h : a.data ≠ []) : a ≠ "" :=
  fun hc => h (by rw [hc])

theorem append_ne_empty_left (a b : String) (h : a ≠ "") : a ++ b ≠ "" := by
  intro hc
  apply h
  have hd := congrArg String.data hc
  rw [String.data_append] at hd
  have hnil : a.data = [] := (List.append_eq_nil.mp hd).1
  exact String.ext (by rw [hnil])

theorem strHead_append (a b : String) (h : a ≠ "") :
    strHead (a ++ b) = strHead a := by
  have hd : a.data ≠ [] := fun hnil => h (String.ext (by rw [hnil]))
  unfold strHead
  rw [String.data_append]
  cases hx : a.data with
  | nil => exact absurd hx hd
  | cons c cs => rfl

theorem dateFormatFailMsg_ne (sd ed t : String) (h : strHead t ≠ some 'I') :
    ValidationService.dateFormatFailMsg sd ed ≠ t := by
  intro hc
  apply h
  rw [← hc]
  unfold ValidationService.dateFormatFailMsg
  rw [strHead_append _ _
      (append_ne_empty_left _ _ (append_ne_empty_left _ _ (by decide)))]
  rw [strHead_append _ _ (append_ne_empty_left _ _ (by decide))]
  rw [strHead_append _ _ (by decide)]
  decide

theorem timeFormatFailMsg_ne (st et t : String) (h : strHead t ≠ some 'I') :
    ValidationService.timeFormatFailMsg st et ≠ t := by
  intro hc
  apply h
  rw [← hc]
  unfold ValidationService.timeFormatFailMsg
  rw [strHead_append _ _
      (append_ne_empty_left _ _ (append_ne_empty_left _ _ (by decide)))]
  rw [strHead_append _ _ (append_ne_empty_left _ _ (by decide))]
  rw [strHead_append _ _ (by decide)]
  decide

theorem parseDate_empty : parseDate "" = none := rfl

theorem parseTime_empty : parseTime "" = none := rfl

theorem dateLt_irrefl (d : PyDate) : dateLt d d = false := by
  simp [dateLt]

theorem requiredMsg_activity_type :
    ValidationService.requiredMsg "activity_type" = "Activity Type is required" := by decide

theorem requiredMsg_start_date :
    ValidationService.requiredMsg "start_date" = "Start Date is required" := by decide

theorem lengthMsg_venue : ValidationService.lengthMsg "venue" 200
    = "Venue exceeds maximum length of 200 characters" := by decide

theorem lengthMsg_collab : ValidationService.lengthMsg "collaboration_sponsor" 500
    = "Collaboration Sponsor exceeds maximum length of 500 characters" := by decide

theorem lengthMsg_highlights : ValidationService.lengthMsg "highlights" 2000
    = "Highlights exceeds maximum length of 2000 characters" := by decide

theorem lengthMsg_key_takeaway : ValidationService.lengthMsg "key_takeaway" 2000
    = "Key Takeaway exceeds maximum length of 2000 characters" := by decide

theorem lengthMsg_summary : ValidationService.lengthMsg "summary" 3000
    = "Summary exceeds maximum length of 3000 characters" := by decide

theorem lengthMsg_follow_up : ValidationService.lengthMsg "follow_up_plan" 2000
    = "Follow Up Plan exceeds maximum length of 2000 characters" := by decide

theorem lengthMsg_name : ValidationService.lengthMsg "name" 100
    = "Name exceeds maximum length of 100 characters" := by decide

theorem lengthMsg_title_position : ValidationService.lengthMsg "title_position" 100
    = "Title Position exceeds maximum length of 100 characters" := by decide

theorem lengthMsg_organization : ValidationService.lengthMsg "organization" 150
    = "Organization exceeds maximum length of 150 characters" := by decide

theorem lengthMsg_contact_info : ValidationService.lengthMsg "contact_info" 200
    = "Contact Info exceeds maximum length of 200 characters" := by decide

theorem lengthMsg_presentation_title :
    ValidationService.lengthMsg "presentation_title" 200
    = "Presentation Title exceeds maximum length of 200 characters" := by decide

theorem lengthMsg_designation : ValidationService.lengthMsg "designation" 100
    = "Designation exceeds maximum length of 100 characters" := by decide

theorem mem_validate_activity_data {a : ValidationService.ActivityData}
    {e : String} :
    e ∈ ValidationService.validate_activity_data a ↔
      e ∈ ValidationService.requiredFieldErrors a
      ∨ e ∈ ValidationService.dateFormatErrors a
      ∨ e ∈ ValidationService.dateRangeErrors a
      ∨ e ∈ ValidationService.timeFormatErrors a
      ∨ e ∈ ValidationService.timeRangeErrors a
      ∨ e ∈ ValidationService.textLimitErrors a
      ∨ e ∈ ValidationService.subCategoryErrors a := by
  simp [ValidationService.validate_activity_data, List.mem_append, or_assoc]

theorem not_mem_requiredFieldErrors (a : ValidationService.ActivityData)
    (e : String) (h1 : e ≠ "Activity Type is required")
    (h2 : e ≠ "Start Date is required") :
    e ∉ ValidationService.requiredFieldErrors a := by
  simp only [ValidationService.requiredFieldErrors, requiredMsg_activity_type,
    requiredMsg_start_date, List.mem_append, mem_if_singleton]
  tauto

theorem not_mem_dateFormatErrors (a : ValidationService.ActivityData)
    (e : String) (h1 : e ≠ "Invalid start date format")
    (h2 : e ≠ "Invalid end date format") :
    e ∉ ValidationService.dateFormatErrors a := by
  simp only [ValidationService.dateFormatErrors, List.mem_append,
    mem_if_singleton]
  tauto

theorem not_mem_dateRangeErrors (a : ValidationService.ActivityData)
    (e : String) (h1 : e ≠ "End date cannot be before start date")
    (h2 : strHead e ≠ some 'I') :
    e ∉ ValidationService.dateRangeErrors a := by
  unfold ValidationService.dateRangeErrors
  split
  · unfold ValidationService.validate_date_range
    cases parseDate a.start_date with
    | none => simp [Ne.symm (dateFormatFailMsg_ne _ _ _ h2)]
    | some s =>
      cases parseDate a.end_date with
      | none => simp [Ne.symm (dateFormatFailMsg_ne _ _ _ h2)]
      | some t =>
        by_cases h : dateLt t s = true
        · simp [h, h1]
        · simp [h]
  · simp

theorem not_mem_timeFormatErrors (a : ValidationService.ActivityData)
    (e : String) (h1 : e ≠ "Invalid start time format")
    (h2 : e ≠ "Invalid end time format") :
    e ∉ ValidationService.timeFormatErrors a := by
  simp only [ValidationService.timeFormatErrors, List.mem_append,
    mem_if_singleton]
  tauto

theorem not_mem_timeRangeErrors (a : ValidationService.ActivityData)
    (e : String) (h1 : e ≠ "End time cannot be before start time")
    (h2 : strHead e ≠ some 'I') :
    e ∉ ValidationService.timeRangeErrors a := by
  unfold ValidationService.timeRangeErrors
  split
  · unfold ValidationService.validate_time_range
    cases parseTime a.start_time with
    | none => simp [Ne.symm (timeFormatFailMsg_ne _ _ _ h2)]
    | some s =>
      cases parseTime a.end_time with
      | none => simp [Ne.symm (timeFormatFailMsg_ne _ _ _ h2)]
      | some t =>
        by_cases h : timeLt t s = true
        · simp [h, h1]
        · simp [h]
  · simp

theorem not_mem_textLimitErrors (a : ValidationService.ActivityData)
    (e : String)
    (h1 : e ≠ "Venue exceeds maximum length of 200 characters")
    (h2 : e ≠ "Collaboration Sponsor exceeds maximum length of 500 characters")
    (h3 : e ≠ "Highlights exceeds maximum length of 2000 characters")
    (h4 : e ≠ "Key Takeaway exceeds maximum length of 2000 characters")
    (h5 : e ≠ "Summary exceeds maximum length of 3000 characters")
    (h6 : e ≠ "Follow Up Plan exceeds maximum length of 2000 characters") :
    e ∉ ValidationService.textLimitErrors a := by
  simp only [ValidationService.textLimitErrors, lengthMsg_venue,
    lengthMsg_collab, lengthMsg_highlights, lengthMsg_key_takeaway,
    lengthMsg_summary, lengthMsg_follow_up, List.mem_append, mem_if_singleton]
  tauto

theorem not_mem_subCategoryErrors (a : ValidationService.ActivityData)
    (e : String)
    (h1 : e ≠ "Please specify sub category when 'Other' is selected") :
    e ∉ ValidationService.subCategoryErrors a := by
  unfold ValidationService.subCategoryErrors
  split <;> simp_all

/-! ## Claim C1 -/

/-- C1, counterexample: a complete-data aggregate whose every section is
satisfied but which stores zero photos.  The claim says aggregate validation
by `ValidationService.validate_complete_activity_report` yields
`valid = false` whenever fewer than 2 photos are stored; the code files the
photo shortage under warnings and returns `valid = true`. -/
theorem c1_counterexample :
    (ValidationService.validate_complete_activity_report
      { activity := { activity_type := "Workshop", start_date := "2025-03-05" },
        speakers := [{ name := "Dr. A" }],
        participants := [{ participant_type := "student", count := some (.int 40) }],
        report_preparers := [{ name := "B", designation := "Lecturer" }],
        photos := [] }).valid = true := by decide

/-- C1, amended: only `ActivityReport.validate_minimum_requirements` treats
fewer than 2 photos as a blocking error (and never does so at 2 or more);
`ValidationService.validate_complete_activity_report` records only a warning,
so its `valid` flag is independent of the stored photos. -/
theorem c1_photo_floor (r : ActivityReport)
    (c : ValidationService.CompleteData)
    (ps : List ValidationService.PhotoData) (h : r.photos.length < 2) :
    "At least 2 activity photos are required for PDF generation"
        ∈ r.validate_minimum_requirements
    ∧ (∀ r2 : ActivityReport, 2 ≤ r2.photos.length →
        "At least 2 activity photos are required for PDF generation"
          ∉ r2.validate_minimum_requirements)
    ∧ (ValidationService.validate_complete_activity_report c).valid
        = (ValidationService.validate_complete_activity_report
            { c with photos := ps }).valid := by
  refine ⟨?_, ?_, rfl⟩
  · simp [ActivityReport.validate_minimum_requirements, List.mem_append,
      mem_if_singleton, h]
  · intro r2 h2
    simp [ActivityReport.validate_minimum_requirements, List.mem_append,
      mem_if_singleton, Nat.not_lt.mpr h2]

/-- C1, witness: the photo-floor theorem applied to a report with all other
sections satisfied and zero photos. -/
theorem c1_photo_floor_witness :
    "At least 2 activity photos are required for PDF generation"
      ∈ (ActivityReport.validate_minimum_requirements
          { activity := { activity_type := "Workshop", start_date := "2025-03-05" },
            speakers := [{ name := "Dr. A" }],
            participants := [⟨"student", 40⟩],
            report_preparers := [{ name := "B", designation := "Lecturer" }],
            photos := [] }) :=
  (c1_photo_floor _ {} [] (by decide)).1

/-! ## Claim C2 -/

/-- C2, counterexample: in `validate_minimum_requirements` the photo check
runs before the preparer check, so with zero preparers and zero photos the
photo error precedes the preparer error -- the claimed section order
(... preparers, then photos) puts them the other way around. -/
theorem c2_counterexample :
    (ActivityReport.validate_minimum_requirements
      { activity := { activity_type := "Workshop", start_date := "2025-03-05" },
        speakers := [{ name := "Dr. A" }],
        participants := [⟨"student", 40⟩],
        report_preparers := [], photos := [] })
      = ["At least 2 activity photos are required for PDF generation",
         "At least one report preparer is required"] := by decide

/-- C2, amended: `validate_complete_activity_report` accumulates blocking
errors in the fixed order activity, speakers, participants, preparers --
photos never contribute an error (the error list is independent of the
photos) -- while `validate_minimum_requirements` uses the order activity,
speakers, participants, photos, preparers; both are pure functions of their
input, so the same input yields the identical list. -/
theorem c2_section_order (c : ValidationService.CompleteData)
    (ps : List ValidationService.PhotoData) (r : ActivityReport) :
    (ValidationService.validate_complete_activity_report c).errors
      = ValidationService.validate_activity_data c.activity
        ++ ValidationService.speakersSectionErrors c.speakers
        ++ ValidationService.participantsSectionErrors c.participants
        ++ ValidationService.preparersSectionErrors c.report_preparers
    ∧ (ValidationService.validate_complete_activity_report
        { c with photos := ps }).errors
      = (ValidationService.validate_complete_activity_report c).errors
    ∧ r.validate_minimum_requirements
      = minActivityErrors r ++ minSpeakersErrors r ++ minParticipantsErrors r
        ++ minPhotosErrors r ++ minPreparersErrors r := by
  refine ⟨rfl, rfl, ?_⟩
  simp [ActivityReport.validate_minimum_requirements, minActivityErrors,
    minSpeakersErrors, minParticipantsErrors, minPhotosErrors,
    minPreparersErrors, List.append_assoc]

/-! ## Claim C3 -/

/-- C3, counterexample: with an unparseable `start_date` and a parseable
`end_date`, the single `try` block of `prepare_template_data` aborts before
formatting the end date, so the parseable `end_date` is left unformatted --
contradicting the claim that parseable dates are formatted. -/
theorem c3_counterexample :
    (prepareTemplateActivityDates
        { start_date := "not-a-date", end_date := "2025-03-06" }).end_date_formatted
      = none
    ∧ (parseDate "2025-03-06").isSome = true := by decide

/-- C3, amended: `prepare_template_data` never changes the raw stored date
strings; a parseable `start_date` is formatted as the long human form
(`"%d %B %Y"`, e.g. `"05 March 2025"`), and `end_date` is formatted only
when it parses AND `start_date` parses too (an unparseable `start_date`
leaves everything raw, even a parseable `end_date`); `date_filter` returns
the raw string unchanged whenever parsing fails and formats parseable dates
with the requested format.  No path raises. -/
theorem c3_date_formatting (a : TemplateActivity) (sd ed : PyDate)
    (s fmt : String) :
    ((prepareTemplateActivityDates a).start_date = a.start_date
      ∧ (prepareTemplateActivityDates a).end_date = a.end_date)
    ∧ (parseDate a.start_date = some sd →
        (prepareTemplateActivityDates a).start_date_formatted
          = some (fmtLongDate sd))
    ∧ (parseDate a.start_date = some sd → parseDate a.end_date = some ed →
        (prepareTemplateActivityDates a).end_date_formatted
          = some (fmtLongDate ed))
    ∧ (parseDate a.start_date = none → prepareTemplateActivityDates a = a)
    ∧ (parseDate s = none → date_filter s fmt = s)
    ∧ (parseDate s = some sd → date_filter s fmt = pyStrftime sd fmt) := by
  have hne : ∀ t : String, ∀ d : PyDate, parseDate t = some d → t ≠ "" := by
    intro t d hp ht
    rw [ht, parseDate_empty] at hp
    exact Option.noConfusion hp
  refine ⟨?_, ?_, ?_, ?_, ?_, ?_⟩
  · by_cases h1 : a.start_date = ""
    · simp [prepareTemplateActivityDates, h1]
    · cases hp : parseDate a.start_date with
      | none => simp [prepareTemplateActivityDates, h1, hp]
      | some d =>
        by_cases h2 : a.end_date = ""
        · simp [prepareTemplateActivityDates, h1, h2, hp]
        · cases hq : parseDate a.end_date with
          | none => simp [prepareTemplateActivityDates, h1, h2, hp, hq]
          | some d2 => simp [prepareTemplateActivityDates, h1, h2, hp, hq]
  · intro hp
    have h1 := hne _ _ hp
    by_cases h2 : a.end_date = ""
    · simp [prepareTemplateActivityDates, h1, h2, hp]
    · cases hq : parseDate a.end_date with
      | none => simp [prepareTemplateActivityDates, h1, h2, hp, hq]
      | some d2 => simp [prepareTemplateActivityDates, h1, h2, hp, hq]
  · intro hp hq
    simp [prepareTemplateActivityDates, hne _ _ hp, hne _ _ hq, hp, hq]
  · intro hp
    by_cases h1 : a.start_date = ""
    · simp [prepareTemplateActivityDates, h1]
    · simp [prepareTemplateActivityDates, h1, hp]
  · intro hp
    by_cases h : s = ""
    · simp [date_filter, h]
    · simp [date_filter, h, hp]
  · intro hp
    simp [date_filter, hne _ _ hp, hp]

/-- C3, witness: the amended formatting theorem applied to the concrete
activity with both dates parseable, and to one malformed string. -/
theorem c3_date_formatting_witness :
    (prepareTemplateActivityDates
        { start_date := "2025-03-05", end_date := "2025-03-06" }).start_date_formatted
      = some "05 March 2025"
    ∧ (prepareTemplateActivityDates
        { start_date := "2025-03-05", end_date := "2025-03-06" }).end_date_formatted
      = some "06 March 2025"
    ∧ date_filter "garbage" "%d %B %Y" = "garbage" := by
  have h := c3_date_formatting
    { start_date := "2025-03-05", end_date := "2025-03-06" }
    (2025, 3, 5) (2025, 3, 6) "garbage" "%d %B %Y"
  exact ⟨h.2.1 (by decide), h.2.2.1 (by decide) (by decide), h.2.2.2.2.1 (by decide)⟩

/-! ## Claim C4 -/

/-- C4: for an activity whose other checks pass, with `start_date` equal to
`end_date` (the code compares the stored strings) and both times parseable,
`validate_activity_data` fails iff `end_time < start_time`; and whenever the
two date strings differ, no time-ordering error is ever produced, whatever
the times are. -/
theorem c4_time_ordering (a : ValidationService.ActivityData) (st et : PyTime)
    (hty : a.activity_type ≠ "")
    (hsd : ValidationService.validate_date a.start_date = true)
    (heq : a.end_date = a.start_date)
    (hst : parseTime a.start_time = some st)
    (het : parseTime a.end_time = some et)
    (hlen : ValidationService.textLimitErrors a = [])
    (hsub : ValidationService.subCategoryErrors a = []) :
    (ValidationService.validate_activity_data a ≠ [] ↔ timeLt et st = true)
    ∧ ∀ b : ValidationService.ActivityData, b.start_date ≠ b.end_date →
        "End time cannot be before start time"
          ∉ ValidationService.validate_activity_data b := by
  have hsne : a.start_date ≠ "" := by
    intro h
    rw [h] at hsd
    exact absurd hsd (by decide)
  have hstne : a.start_time ≠ "" := by
    intro h
    rw [h, parseTime_empty] at hst
    exact Option.noConfusion hst
  have hetne : a.end_time ≠ "" := by
    intro h
    rw [h, parseTime_empty] at het
    exact Option.noConfusion het
  obtain ⟨sd, hsdp⟩ := Option.isSome_iff_exists.mp
    (by simpa [ValidationService.validate_date] using hsd)
  have h1 : ValidationService.requiredFieldErrors a = [] := by
    simp [ValidationService.requiredFieldErrors, hty, hsne]
  have h2 : ValidationService.dateFormatErrors a = [] := by
    simp [ValidationService.dateFormatErrors, heq, hsd]
  have h3 : ValidationService.dateRangeErrors a = [] := by
    unfold ValidationService.dateRangeErrors ValidationService.validate_date_range
    rw [heq, if_pos ⟨hsne, hsne⟩, hsdp]
    simp [dateLt_irrefl]
  have h4 : ValidationService.timeFormatErrors a = [] := by
    simp [ValidationService.timeFormatErrors, ValidationService.validate_time,
      hst, het]
  have h5 : ValidationService.timeRangeErrors a
      = (if timeLt et st then ["End time cannot be before start time"]
         else []) := by
    unfold ValidationService.timeRangeErrors ValidationService.validate_time_range
    rw [hst, het, if_pos ⟨heq.symm, hstne, hetne⟩]
    by_cases h : timeLt et st = true
    · simp [h]
    · simp [h]
  have hall : ValidationService.validate_activity_data a
      = (if timeLt et st then ["End time cannot be before start time"]
         else []) := by
    unfold ValidationService.validate_activity_data
    rw [h1, h2, h3, h4, h5, hlen, hsub]
    simp
  constructor
  · rw [hall]
    by_cases h : timeLt et st = true
    · simp [h]
    · simp [h]
  · intro b hbne
    rw [mem_validate_activity_data]
    intro hmem
    rcases hmem with h | h | h | h | h | h | h
    · exact not_mem_requiredFieldErrors b _ (by decide) (by decide) h
    · exact not_mem_dateFormatErrors b _ (by decide) (by decide) h
    · exact not_mem_dateRangeErrors b _ (by decide) (by decide) h
    · exact not_mem_timeFormatErrors b _ (by decide) (by decide) h
    · have hz : ValidationService.timeRangeErrors b = [] := by
        simp [ValidationService.timeRangeErrors, hbne]
      rw [hz] at h
      exact absurd h (List.not_mem_nil _)
    · exact not_mem_textLimitErrors b _ (by decide) (by decide) (by decide)
        (by decide) (by decide) (by decide) h
    · exact not_mem_subCategoryErrors b _ (by decide) h

/-- C4, witness: same-day activity with `end_time` before `start_time`
fails; the instantiated theorem also covers the different-dates conjunct. -/
theorem c4_time_ordering_witness :
    ValidationService.validate_activity_data
      { activity_type := "Workshop", start_date := "2025-03-05",
        end_date := "2025-03-05", start_time := "10:00", end_time := "09:00" }
      ≠ [] :=
  (c4_time_ordering
    { activity_type := "Workshop", start_date := "2025-03-05",
      end_date := "2025-03-05", start_time := "10:00", end_time := "09:00" }
    (10, 0) (9, 0) (by decide) (by decide) (by decide) (by decide) (by decide)
    (by decide) (by decide)).1.mpr (by decide)

/-! ## Claim C5 -/

/-- C5: whenever both stored dates parse, the date-range error
`"End date cannot be before start date"` is reported by
`validate_activity_data` iff the end date is strictly before the start
date -- for every activity record, hence independent of the stored times. -/
theorem c5_date_ordering (a : ValidationService.ActivityData)
    (ds de : PyDate)
    (hs : parseDate a.start_date = some ds)
    (he : parseDate a.end_date = some de) :
    (("End date cannot be before start date"
        ∈ ValidationService.validate_activity_data a)
      ↔ dateLt de ds = true)
    ∧ (a.activity_type ≠ "" → a.start_time = "" → a.end_time = "" →
        ValidationService.textLimitErrors a = [] →
        ValidationService.subCategoryErrors a = [] →
        (ValidationService.validate_activity_data a ≠ []
          ↔ dateLt de ds = true)) := by
  have hsne : a.start_date ≠ "" := by
    intro h
    rw [h, parseDate_empty] at hs
    exact Option.noConfusion hs
  have hene : a.end_date ≠ "" := by
    intro h
    rw [h, parseDate_empty] at he
    exact Option.noConfusion he
  have hdr : ValidationService.dateRangeErrors a
      = (if dateLt de ds then ["End date cannot be before start date"]
         else []) := by
    unfold ValidationService.dateRangeErrors ValidationService.validate_date_range
    rw [hs, he, if_pos ⟨hsne, hene⟩]
    by_cases h : dateLt de ds = true
    · simp [h]
    · simp [h]
  refine ⟨⟨?_, ?_⟩, ?_⟩
  · intro hmem
    rcases mem_validate_activity_data.mp hmem with h | h | h | h | h | h | h
    · exact absurd h (not_mem_requiredFieldErrors a _ (by decide) (by decide))
    · exact absurd h (not_mem_dateFormatErrors a _ (by decide) (by decide))
    · rw [hdr] at h
      by_cases hlt : dateLt de ds = true
      · exact hlt
      · rw [if_neg (by simpa using hlt)] at h
        exact absurd h (List.not_mem_nil _)
    · exact absurd h (not_mem_timeFormatErrors a _ (by decide) (by decide))
    · exact absurd h (not_mem_timeRangeErrors a _ (by decide) (by decide))
    · exact absurd h (not_mem_textLimitErrors a _ (by decide) (by decide)
        (by decide) (by decide) (by decide) (by decide))
    · exact absurd h (not_mem_subCategoryErrors a _ (by decide))
  · intro hlt
    rw [mem_validate_activity_data]
    right; right; left
    rw [hdr, if_pos hlt]
    exact List.mem_singleton.mpr rfl
  · intro hty hst het hlen hsub
    have hvd : ValidationService.validate_date a.start_date = true := by
      simp [ValidationService.validate_date, hs]
    have hve : ValidationService.validate_date a.end_date = true := by
      simp [ValidationService.validate_date, he]
    have h1 : ValidationService.requiredFieldErrors a = [] := by
      simp [ValidationService.requiredFieldErrors, hty, hsne]
    have h2 : ValidationService.dateFormatErrors a = [] := by
      simp [ValidationService.dateFormatErrors, hvd, hve]
    have h4 : ValidationService.timeFormatErrors a = [] := by
      simp [ValidationService.timeFormatErrors, hst, het]
    have h5 : ValidationService.timeRangeErrors a = [] := by
      simp [ValidationService.timeRangeErrors, hst]
    have hall : ValidationService.validate_activity_data a
        = (if dateLt de ds then ["End date cannot be before start date"]
           else []) := by
      unfold ValidationService.validate_activity_data
      rw [h1, h2, hdr, h4, h5, hlen, hsub]
      simp
    rw [hall]
    by_cases hlt : dateLt de ds = true
    · simp [hlt]
    · simp [hlt]

/-- C5, witness: an activity whose end date precedes its start date (with
arbitrary times present) reports the date-range error. -/
theorem c5_date_ordering_witness :
    "End date cannot be before start date"
      ∈ ValidationService.validate_activity_data
        { activity_type := "Workshop", start_date := "2025-03-06",
          end_date := "2025-03-05", start_time := "09:00",
          end_time := "23:00" } :=
  (c5_date_ordering
    { activity_type := "Workshop", start_date := "2025-03-06",
      end_date := "2025-03-05", start_time := "09:00", end_time := "23:00" }
    (2025, 3, 6) (2025, 3, 5) (by decide) (by decide)).1.mpr (by decide)

/-! ## Claim C6 -/

theorem not_mem_speakerLengthErrors (s : ValidationService.SpeakerData)
    (e : String)
    (h1 : e ≠ "Name exceeds maximum length of 100 characters")
    (h2 : e ≠ "Title Position exceeds maximum length of 100 characters")
    (h3 : e ≠ "Organization exceeds maximum length of 150 characters")
    (h4 : e ≠ "Contact Info exceeds maximum length of 200 characters")
    (h5 : e ≠ "Presentation Title exceeds maximum length of 200 characters") :
    e ∉ ValidationService.speakerLengthErrors s := by
  simp only [ValidationService.speakerLengthErrors, lengthMsg_name,
    lengthMsg_title_position, lengthMsg_organization, lengthMsg_contact_info,
    lengthMsg_presentation_title, List.mem_append, mem_if_singleton]
  tauto

/-- C6: for a non-empty `contact_info`, the speaker validator reports the
contact error iff the value matches neither the email regex nor the
normalized 10-15-digit phone shape; the spec scenario values behave as
claimed. -/
theorem c6_contact_info (sd : ValidationService.SpeakerData)
    (h : sd.contact_info ≠ "") :
    (("Contact information should be a valid email address or phone number"
        ∈ ValidationService.validate_speaker_data sd)
      ↔ (ValidationService.validate_email sd.contact_info
          || ValidationService.validate_phone_number sd.contact_info) = false)
    ∧ ValidationService.validate_email "a@b.com" = true
    ∧ ValidationService.validate_phone_number "9876543210" = true
    ∧ ValidationService.validate_email "not-an-email-or-phone" = false
    ∧ ValidationService.validate_phone_number "not-an-email-or-phone" = false := by
  refine ⟨?_, by decide, by decide, by decide, by decide⟩
  unfold ValidationService.validate_speaker_data
  simp only [List.mem_append, mem_if_singleton]
  constructor
  · rintro ((hc | hc) | hc)
    · exact absurd hc.2 (by decide)
    · exact absurd hc (not_mem_speakerLengthErrors sd _ (by decide) (by decide)
        (by decide) (by decide) (by decide))
    · have := hc.1.2
      simpa using this
  · intro hval
    right
    exact ⟨⟨h, by simp [hval]⟩, by trivial⟩

/-- C6, witness: the theorem instantiated at a speaker whose contact info is
the failing scenario string. -/
theorem c6_contact_info_witness :
    "Contact information should be a valid email address or phone number"
      ∈ ValidationService.validate_speaker_data
          { name := "Dr. A", contact_info := "not-an-email-or-phone" } :=
  ((c6_contact_info { name := "Dr. A", contact_info := "not-an-email-or-phone" }
    (by decide)).1).mpr (by decide)

/-! ## Claim C7 -/

theorem bumpCount_append (key : String) (c : Int)
    (acc : List (String × Int)) (h : ∀ kv ∈ acc, kv.1 ≠ key) :
    bumpCount key c acc = acc ++ [(key, c)] := by
  induction acc with
  | nil => rfl
  | cons kv rest ih =>
    obtain ⟨k, v⟩ := kv
    have hne : k ≠ key := h (k, v) (by simp)
    simp only [bumpCount, if_neg hne, List.cons_append, List.cons.injEq,
      true_and]
    exact ih fun x hx => h x (List.mem_cons_of_mem _ hx)

theorem typeCounts_of_nodup (ps : List Participant)
    (acc : List (String × Int))
    (hacc : ∀ kv ∈ acc, ∀ p ∈ ps, kv.1 ≠ p.display_type)
    (hnd : (ps.map Participant.display_type).Nodup) :
    ps.foldl (fun a p => bumpCount p.display_type p.count a) acc
      = acc ++ ps.map (fun p => (p.display_type, p.count)) := by
  induction ps generalizing acc with
  | nil => simp
  | cons p rest ih =>
    have hnd' : (∀ x ∈ rest, ¬ x.display_type = p.display_type)
        ∧ (rest.map Participant.display_type).Nodup := by simpa using hnd
    simp only [List.foldl_cons]
    rw [bumpCount_append _ _ _ (fun kv hkv => hacc kv hkv p (by simp))]
    rw [ih (acc ++ [(p.display_type, p.count)]) ?_ hnd'.2]
    · simp
    · intro kv hkv q hq
      rcases List.mem_append.mp hkv with hin | hin
      · exact hacc kv hin q (List.mem_cons_of_mem _ hq)
      · have hkveq : kv = (p.display_type, p.count) := by simpa using hin
        subst hkveq
        intro hcon
        exact hnd'.1 q hq hcon.symm

/-- C7, counterexample: two stored rows whose display labels collide
(`student` maps to `Students`, and the unrecognized type `students`
title-cases to `Students` as well): the code merges them into one summed
fragment, while the claim prescribes one fragment per stored row. -/
theorem c7_counterexample :
    (ActivityReport.participant_types_display
      { activity := {}, speakers := [],
        participants := [⟨"student", 1⟩, ⟨"students", 2⟩],
        report_preparers := [], photos := [] }) = "3 Students"
    ∧ specParticipantTypesDisplay [⟨"student", 1⟩, ⟨"students", 2⟩]
        = "1 Students, 2 Students"
    ∧ ("3 Students" : String) ≠ "1 Students, 2 Students" := by decide

/-- C7, amended: `participant_types_display` joins one `"count label"`
fragment per distinct display label, in order of first occurrence, summing
the counts of rows that share a label; when all display labels are distinct
(in particular in the spec scenario, whose value is also proved here) this
coincides with the claimed per-row join in stored order. -/
theorem c7_display (r : ActivityReport)
    (h : (r.participants.map Participant.display_type).Nodup) :
    r.participant_types_display = specParticipantTypesDisplay r.participants
    ∧ (ActivityReport.participant_types_display
        { activity := {}, speakers := [],
          participants := [⟨"faculty", 3⟩, ⟨"student", 40⟩,
            ⟨"research_scholar", 2⟩],
          report_preparers := [], photos := [] })
        = "3 Faculty, 40 Students, 2 Research Scholars" := by
  refine ⟨?_, by decide⟩
  unfold ActivityReport.participant_types_display specParticipantTypesDisplay
    typeCounts
  rw [typeCounts_of_nodup _ [] (by simp) h]
  simp [List.map_map, Function.comp_def]

/-- C7, witness: the amended display theorem at the spec scenario rows. -/
theorem c7_display_witness :
    (ActivityReport.participant_types_display
      { activity := {}, speakers := [],
        participants := [⟨"faculty", 3⟩, ⟨"student", 40⟩,
          ⟨"research_scholar", 2⟩],
        report_preparers := [], photos := [] })
      = specParticipantTypesDisplay
          [⟨"faculty", 3⟩, ⟨"student", 40⟩, ⟨"research_scholar", 2⟩] :=
  (c7_display
    { activity := {}, speakers := [],
      participants := [⟨"faculty", 3⟩, ⟨"student", 40⟩,
        ⟨"research_scholar", 2⟩],
      report_preparers := [], photos := [] } (by decide)).1

/-! ## Claim C8 -/

/-- C8: the participant validator reports no count error exactly when the
stored count is a Python `int` with `0 < count ≤ 9999`; a missing count
defaults to `0`, a non-`int` count trips the `isinstance` check, and an
out-of-range `int` trips one of the two bound checks. -/
theorem c8_count_bounds (p : ValidationService.ParticipantData) :
    ("Participant count must be a positive integer"
        ∉ ValidationService.validate_participant_data p
      ∧ "Participant count cannot exceed 9999"
        ∉ ValidationService.validate_participant_data p)
    ↔ ∃ n : Int, p.count.getD (.int 0) = .int n ∧ 0 < n ∧ n ≤ 9999 := by
  cases hc : p.count.getD (.int 0) with
  | int n =>
    have hiff1 : ((n : ℚ) ≤ 0) ↔ (n ≤ 0) := Int.cast_nonpos
    have hiff2 : ((9999 : ℚ) < (n : ℚ)) ↔ ((9999 : ℤ) < n) := by
      exact_mod_cast Iff.rfl
    constructor
    · rintro ⟨h1, h2⟩
      refine ⟨n, rfl, ?_, ?_⟩
      · by_contra hpos
        apply h1
        have hle : (n : ℚ) ≤ 0 := hiff1.mpr (by omega)
        simp [ValidationService.validate_participant_data, hc, PyNum.isInt,
          PyNum.toRat, hle]
      · by_contra hgt
        apply h2
        have hlt : (9999 : ℚ) < (n : ℚ) := hiff2.mpr (by omega)
        simp [ValidationService.validate_participant_data, hc,
          PyNum.toRat, hlt]
    · rintro ⟨n2, hn2, hpos, hle⟩
      injection hn2 with hn
      subst hn
      have h0 : ¬ ((n : ℚ) ≤ 0) := fun hq => absurd (hiff1.mp hq) (by omega)
      have h9 : ¬ ((9999 : ℚ) < (n : ℚ)) :=
        fun hq => absurd (hiff2.mp hq) (by omega)
      constructor
      · intro hmem
        simp [ValidationService.validate_participant_data, hc, PyNum.isInt,
          PyNum.toRat, h0, h9, mem_if_singleton] at hmem
      · intro hmem
        simp [ValidationService.validate_participant_data, hc, PyNum.isInt,
          PyNum.toRat, h0, h9, mem_if_singleton] at hmem
  | float q =>
    constructor
    · rintro ⟨h1, h2⟩
      exfalso
      apply h1
      simp [ValidationService.validate_participant_data, hc, PyNum.isInt]
    · rintro ⟨n2, hn2, hpos, hle⟩
      exact PyNum.noConfusion hn2

/-! ## Claim C9 -/

/-- C9: each field validator equals its exception-level re-tracing wrapped
in `.ok` -- the `try/except ValueError` around `strptime` catches the only
exception, so no input string can make a validator raise -- and a string
that fails to parse yields an invalid result, not an error. -/
theorem c9_validators_total (s t : String) :
    validate_dateExc s = Except.ok (ValidationService.validate_date s)
    ∧ validate_timeExc s = Except.ok (ValidationService.validate_time s)
    ∧ validate_date_rangeExc s t
        = Except.ok (ValidationService.validate_date_range s t)
    ∧ validate_time_rangeExc s t
        = Except.ok (ValidationService.validate_time_range s t)
    ∧ (parseDate s = none → ValidationService.validate_date s = false)
    ∧ (parseTime s = none → ValidationService.validate_time s = false) := by
  refine ⟨?_, ?_, ?_, ?_, ?_, ?_⟩
  · unfold validate_dateExc strptimeDateExc ValidationService.validate_date
    cases parseDate s <;> rfl
  · unfold validate_timeExc strptimeTimeExc ValidationService.validate_time
    cases parseTime s <;> rfl
  · unfold validate_date_rangeExc strptimeDateExc
      ValidationService.validate_date_range
    cases parseDate s <;> cases parseDate t <;> rfl
  · unfold validate_time_rangeExc strptimeTimeExc
      ValidationService.validate_time_range
    cases parseTime s <;> cases parseTime t <;> rfl
  · intro h
    unfold ValidationService.validate_date
    rw [h]
    rfl
  · intro h
    unfold ValidationService.validate_time
    rw [h]
    rfl

/-- C9, witness: the totality theorem instantiated at a malformed date and
time string. -/
theorem c9_validators_total_witness :
    ValidationService.validate_date "31/12/2025" = false
    ∧ ValidationService.validate_time "9pm" = false :=
  ⟨(c9_validators_total "31/12/2025" "9pm").2.2.2.2.1 (by decide),
   (c9_validators_total "31/12/2025" "9pm").2.2.2.2.2 (by decide)⟩

/-! ## Claim C10 -/

theorem dropWhile_head_false {p : Char → Bool} {l : List Char} :
    ∀ {c : Char} {cs : List Char}, l.dropWhile p = c :: cs → p c = false := by
  induction l with
  | nil => intro c cs h; exact absurd h (by simp)
  | cons a ta ih =>
    intro c cs h
    rw [List.dropWhile_cons] at h
    by_cases hp : p a = true
    · rw [if_pos hp] at h
      exact ih h
    · rw [if_neg hp] at h
      cases h
      cases hb : p a with
      | false => rfl
      | true => exact absurd hb hp

theorem mem_of_mem_dropWhile {p : Char → Bool} {c : Char} {l : List Char}
    (h : c ∈ l.dropWhile p) : c ∈ l :=
  (List.dropWhile_sublist p).subset h

theorem mem_of_mem_pyStripList {c : Char} {l : List Char}
    (h : c ∈ pyStripList l) : c ∈ l := by
  unfold pyStripList at h
  have h1 := mem_of_mem_dropWhile (List.mem_reverse.mp h)
  exact mem_of_mem_dropWhile (List.mem_reverse.mp h1)

theorem dropWhile_eq_self_of_head {p : Char → Bool} {l : List Char}
    (h : ∀ c cs, l = c :: cs → p c = false) : l.dropWhile p = l := by
  cases l with
  | nil => rfl
  | cons a ta => simp [List.dropWhile_cons, h a ta rfl]

theorem pyStripList_eq_rdropWhile (l : List Char) :
    pyStripList l = List.rdropWhile pyIsSpace (l.dropWhile pyIsSpace) := rfl

theorem dropWhile_pyStripList (l : List Char) :
    (pyStripList l).dropWhile pyIsSpace = pyStripList l := by
  rw [pyStripList_eq_rdropWhile]
  apply dropWhile_eq_self_of_head
  intro c cs hc
  obtain ⟨u, hu⟩ :=
    List.rdropWhile_prefix (p := pyIsSpace) (l := l.dropWhile pyIsSpace)
  rw [hc, List.cons_append] at hu
  exact dropWhile_head_false hu.symm

theorem pyStripList_idem (l : List Char) :
    pyStripList (pyStripList l) = pyStripList l := by
  rw [pyStripList_eq_rdropWhile (pyStripList l), dropWhile_pyStripList,
    pyStripList_eq_rdropWhile l, List.rdropWhile_idempotent]

theorem null_not_mem_filter (l : List Char) :
    '\x00' ∉ l.filter fun c => c ≠ '\x00' := by
  intro h
  have := (List.mem_filter.mp h).2
  simp at this

/-- Shared step for the sanitize claim: on NUL-free input with no length
cap, `sanitize_text_input` is exactly `str.strip()`. -/
theorem sanitize_none_eq_strip (s : String) (h : '\x00' ∉ s.toList) :
    ValidationService.sanitize_text_input s none = pyStrip s := by
  unfold ValidationService.sanitize_text_input
  by_cases hs : s = ""
  · rw [if_pos hs, hs]
    rfl
  · rw [if_neg hs]
    show (List.filter _ (pyStripList s.toList)).asString = pyStrip s
    rw [List.filter_eq_self.mpr]
    · rfl
    · intro a ha
      have : a ≠ '\x00' := fun hc => h (hc ▸ mem_of_mem_pyStripList ha)
      simpa using this

/-- C10, counterexample: `sanitize_text_input` removes NUL characters only
after stripping, so `"\x00 a"` sanitizes to `" a"` (leading whitespace
survives) and a second application gives `"a"` -- the function is not
idempotent even without a length cap. -/
theorem c10_counterexample :
    ValidationService.sanitize_text_input
        (ValidationService.sanitize_text_input "\x00 a" none) none
      ≠ ValidationService.sanitize_text_input "\x00 a" none := by decide

/-- C10, amended: the output never contains a NUL character and respects a
positive length cap; but stripping happens before NUL removal and before
truncation, so whitespace can survive at either end and idempotence holds
only for NUL-free input without a cap, where the output is exactly the
stripped string. -/
theorem c10_sanitize (s : String) (m : Option Nat) (k : Nat) :
    ('\x00' ∉ (ValidationService.sanitize_text_input s m).toList)
    ∧ (m = some k → 0 < k →
        (ValidationService.sanitize_text_input s m).length ≤ k)
    ∧ ('\x00' ∉ s.toList →
        ValidationService.sanitize_text_input s none = pyStrip s
        ∧ ValidationService.sanitize_text_input
            (ValidationService.sanitize_text_input s none) none
          = ValidationService.sanitize_text_input s none) := by
  refine ⟨?_, ?_, ?_⟩
  · by_cases hs : s = ""
    · simp [ValidationService.sanitize_text_input, hs]
    · cases m with
      | none =>
        simp only [ValidationService.sanitize_text_input, if_neg hs]
        exact null_not_mem_filter _
      | some j =>
        by_cases hj : j ≠ 0
        · simp only [ValidationService.sanitize_text_input, if_neg hs,
            if_pos hj]
          exact fun hmem =>
            null_not_mem_filter _ ((List.take_sublist _ _).subset hmem)
        · simp only [ValidationService.sanitize_text_input, if_neg hs,
            if_neg hj]
          exact null_not_mem_filter _
  · intro hm hk
    subst hm
    by_cases hs : s = ""
    · simp only [ValidationService.sanitize_text_input, if_pos hs]
      exact Nat.zero_le k
    · simp only [ValidationService.sanitize_text_input, if_neg hs,
        if_pos (Nat.pos_iff_ne_zero.mp hk)]
      show (List.take k _).asString.length ≤ k
      rw [show ∀ l : List Char, l.asString.length = l.length from fun l => rfl]
      simp [List.length_take]
  · intro hnull
    have h1 := sanitize_none_eq_strip s hnull
    refine ⟨h1, ?_⟩
    rw [h1]
    have hnull2 : '\x00' ∉ (pyStrip s).toList := by
      intro hc
      exact hnull (mem_of_mem_pyStripList hc)
    rw [sanitize_none_eq_strip _ hnull2]
    show (pyStripList (pyStripList s.toList)).asString = pyStrip s
    rw [pyStripList_idem]
    rfl

/-- C10, witness: the amended sanitize theorem at a capped and an uncapped
concrete input. -/
theorem c10_sanitize_witness :
    (ValidationService.sanitize_text_input "  hi there  " (some 3)).length ≤ 3
    ∧ ValidationService.sanitize_text_input "  hi  " none = pyStrip "  hi  " :=
  ⟨(c10_sanitize "  hi there  " (some 3) 3).2.1 rfl (by decide),
   ((c10_sanitize "  hi  " none 1).2.2 (by decide)).1⟩
